import Mathlib

/-!
Shallow embedding of the messaging core of the Notifications repository
(src/app/services/message_publisher.py, message_consumer.py, amqp_manager.py,
dropbox_manager.py), together with proofs of the spec claims about it.

Modelling conventions, stated once:
* Python dicts become association lists over a JSON-like value type JVal,
  with get/set following Python dict semantics (get with default, insertion
  order preserved on update).
* The Dropbox store (Metadata Store / Audit Sink) becomes a map from path
  strings to stored JSON objects inside an explicit World state.  The
  DropboxManager wrappers catch every exception and return booleans or
  None, so each wrapper is modelled as a total function returning a Bool
  (or Option) plus the updated World; failure injection is a set of paths
  for which files_upload raises (failUploads).
* AMQP basic_publish is modelled as appending a publish event to a trace;
  publishFail injects transport failure.  Every upload and publish attempt
  is recorded in the trace so that call-order properties are statable.
* uuid4(), datetime.utcnow() and date.today() are environment inputs
  (Env.newId, Env.now, Env.today), as is settings.daily_message_limit.
* Python int values live in Int; Python bool participates in arithmetic as
  0/1 exactly as in CPython.  A Python TypeError raised by comparing or
  adding a non-numeric value is modelled by the asInt partial view: the
  surrounding try/except turns it into the documented failure result.
* The source only ever compares a JSON value with a string literal
  (last_reset vs today, message type dispatch); Python equality of an
  arbitrary value with a str holds exactly when the value is that str,
  which is what isStrVal decides.
* Message bodies arriving from the broker are classified by the only three
  behaviours bytes can have in the consumer: not valid UTF-8 (decode
  raises UnicodeDecodeError), valid UTF-8 but not valid JSON (json.loads
  raises JSONDecodeError), or a parsed JSON value.
-/

/-- JSON-like values, the contents of Python dicts in the source. -/
inductive JVal where
  | null
  | bool (b : Bool)
  | num (n : Int)
  | str (s : String)
  | arr (elems : List JVal)
  | obj (fields : List (String × JVal))

/-- A Python dict with string keys. -/
abbrev Dict := List (String × JVal)

/-- Association-list lookup, Python d.get(k). -/
def dictGet {α : Type} (d : List (String × α)) (k : String) : Option α :=
  match d with
  | [] => none
  | (k', v) :: rest => if k' = k then some v else dictGet rest k

/-- Python d.get(k, dflt). -/
def dictGetD (d : Dict) (k : String) (dflt : JVal) : JVal :=
  (dictGet d k).getD dflt

/-- Association-list update, Python d[k] = v (insertion order preserved). -/
def dictSet {α : Type} (d : List (String × α)) (k : String) (v : α) :
    List (String × α) :=
  match d with
  | [] => [(k, v)]
  | (k', v') :: rest =>
    if k' = k then (k, v) :: rest else (k', v') :: dictSet rest k v

/-- View of a JVal as a Python number usable in int arithmetic and
comparisons; bool counts as 0/1 as in CPython, anything else raises
TypeError (modelled as none). -/
def JVal.asInt : JVal → Option Int
  | .num n => some n
  | .bool b => some (if b then 1 else 0)
  | _ => none

/-- Python equality of a (possibly missing) dict value with a string
literal: true exactly when the value is present and is that string. -/
def isStrVal (o : Option JVal) (t : String) : Bool :=
  match o with
  | some (.str s) => s = t
  | _ => false

/-- Rendering of a value inside a Python f-string.  The claims only ever
interpolate string and integer values, where this agrees with str(). -/
def JVal.render : JVal → String
  | .null => "None"
  | .bool b => if b then "True" else "False"
  | .num n => toString n
  | .str s => s
  | .arr _ => "<list>"
  | .obj _ => "<dict>"

/-- One observable collaborator call: a Dropbox files_upload attempt or an
AMQP basic_publish attempt, with its payload and outcome. -/
inductive Event where
  | upload (path : String) (ok : Bool)
  | publish (exchange routingKey : String) (message : Dict) (ok : Bool)

/-- The mutable world: Dropbox file contents, injected upload failures,
injected broker publish failure, and the trace of collaborator calls. -/
structure World where
  files : List (String × Dict)
  failUploads : List String
  publishFail : Bool
  trace : List Event

/-- DropboxManager.upload_json: returns False on any storage exception,
True and the stored object otherwise (WriteMode overwrite). -/
def upload_json (path : String) (data : Dict) (w : World) : Bool × World :=
  if path ∈ w.failUploads then
    (false, { w with trace := w.trace ++ [.upload path false] })
  else
    (true, { w with files := dictSet w.files path data,
                    trace := w.trace ++ [.upload path true] })

/-- DropboxManager.download_json: None when the file is missing or any
exception occurs, the stored object otherwise. -/
def download_json (path : String) (w : World) : Option Dict :=
  dictGet w.files path

/-- Path of a client's metadata document. -/
def metadataPath (client_id : String) : String :=
  "/clients/" ++ client_id ++ "/metadata.json"

/-- Path of an archived client message. -/
def clientMessagePath (client_id message_id : String) : String :=
  "/clients/" ++ client_id ++ "/messages/" ++ message_id ++ ".json"

/-- DropboxManager.get_client_metadata. -/
def get_client_metadata (client_id : String) (w : World) : Option Dict :=
  download_json (metadataPath client_id) w

/-- DropboxManager.update_client_metadata. -/
def update_client_metadata (client_id : String) (metadata : Dict)
    (w : World) : Bool × World :=
  upload_json (metadataPath client_id) metadata w

/-- AMQPManager.publish_message: records the basic_publish attempt; fails
when the injected transport failure is set. -/
def publish_message (exchange routing_key : String) (message : Dict)
    (w : World) : Bool × World :=
  if w.publishFail then
    (false, { w with trace := w.trace ++ [.publish exchange routing_key message false] })
  else
    (true, { w with trace := w.trace ++ [.publish exchange routing_key message true] })

/-- AMQPManager.publish_client_message. -/
def publish_client_message (client_id : String) (message : Dict)
    (w : World) : Bool × World :=
  publish_message "insurance.direct" client_id message w

/-- AMQPManager.publish_workflow_message. -/
def publish_workflow_message (routing_key : String) (message : Dict)
    (w : World) : Bool × World :=
  publish_message "insurance.workflow" routing_key message w

/-- Environment inputs of a publisher call: the current date and time
stamps, the fresh uuid4 value, and settings.daily_message_limit. -/
structure Env where
  today : String
  now : String
  newId : String
  dailyLimit : Int

/-- The day-rollover mutation of check_message_limit lines 128-129:
counter to 0, last_reset to today. -/
def resetMetadata (metadata : Dict) (today : String) : Dict :=
  dictSet (dictSet metadata "message_count_today" (.num 0)) "last_reset" (.str today)

/-- MessagePublisher.check_message_limit, lines 116-139: missing or empty
metadata denies; a stale last_reset resets the counter (and persists,
ignoring the write result) before the comparison; a TypeError from a
non-numeric counter is caught and denies. -/
def check_message_limit (env : Env) (client_id : String) (w : World) :
    Bool × World :=
  match get_client_metadata client_id w with
  | none => (false, w)
  | some metadata =>
    if metadata.isEmpty then (false, w)
    else
      match
        (if isStrVal (dictGet metadata "last_reset") env.today then (metadata, w)
         else (resetMetadata metadata env.today,
               (update_client_metadata client_id
                 (resetMetadata metadata env.today) w).2)) with
      | (current_metadata, w2) =>
        match (dictGetD current_metadata "message_count_today" (.num 0)).asInt with
        | none => (false, w2)
        | some current_count => (decide (current_count < env.dailyLimit), w2)

/-- The counter bump of increment_message_counter lines 149-150: counter
to c+1, a fresh last_message_sent stamp. -/
def incrementMetadata (metadata : Dict) (now : String) (c : Int) : Dict :=
  dictSet (dictSet metadata "message_count_today" (.num (c + 1)))
    "last_message_sent" (.str now)

/-- MessagePublisher.increment_message_counter, lines 141-156. -/
def increment_message_counter (env : Env) (client_id : String) (w : World) :
    Bool × World :=
  match get_client_metadata client_id w with
  | none => (false, w)
  | some metadata =>
    if metadata.isEmpty then (false, w)
    else
      match (dictGetD metadata "message_count_today" (.num 0)).asInt with
      | none => (false, w)
      | some c =>
        update_client_metadata client_id (incrementMetadata metadata env.now c) w

/-- app.models.MessageType (models.py). -/
inductive MessageType where
  | document_request
  | claim_update
  | payment_reminder
  | enrollment_notification
  | beneficiary_update
  | system_alert
deriving DecidableEq

/-- The .value string of a MessageType member. -/
def MessageType.value : MessageType → String
  | .document_request => "document_request"
  | .claim_update => "claim_update"
  | .payment_reminder => "payment_reminder"
  | .enrollment_notification => "enrollment_notification"
  | .beneficiary_update => "beneficiary_update"
  | .system_alert => "system_alert"

/-- app.models.MessageCreate (validated payload of a client message). -/
structure MessageCreate where
  client_id : String
  message_type : MessageType
  content : String
  attachments : List JVal
  metadata : Dict

/-- Outcome of MessagePublisher.send_client_message: the propagated
MessageLimitExceededException, a returned None, or the returned dict. -/
inductive SendResult where
  | limitExceeded
  | failure
  | sent (result : Dict)

/-- True exactly for the sent outcome. -/
def SendResult.isSent : SendResult → Bool
  | .sent _ => true
  | _ => false

/-- The message payload built in send_client_message lines 41-49. -/
def buildClientMessage (env : Env) (client_id : String)
    (message_data : MessageCreate) : Dict :=
  [("id", .str env.newId),
   ("type", .str message_data.message_type.value),
   ("content", .str message_data.content),
   ("timestamp", .str env.now),
   ("client_id", .str client_id),
   ("attachments", .arr message_data.attachments),
   ("metadata", .obj message_data.metadata)]

/-- The status dict returned on success (lines 66-71). -/
def sentResult (env : Env) (client_id : String) : Dict :=
  [("message_id", .str env.newId),
   ("client_id", .str client_id),
   ("status", .str "sent"),
   ("timestamp", .str env.now)]

/-- MessagePublisher.send_client_message, lines 33-78: quota check, then
archive to Dropbox, then publish, then counter increment (whose own
result is ignored). -/
def send_client_message (env : Env) (client_id : String)
    (message_data : MessageCreate) (w : World) : SendResult × World :=
  match check_message_limit env client_id w with
  | (false, w) => (.limitExceeded, w)
  | (true, w) =>
    let message := buildClientMessage env client_id message_data
    match upload_json (clientMessagePath client_id env.newId) message w with
    | (false, w) => (.failure, w)
    | (true, w) =>
      match publish_client_message client_id message w with
      | (false, w) => (.failure, w)
      | (true, w) =>
        (.sent (sentResult env client_id),
         (increment_message_counter env client_id w).2)

/-- The workflow message payload built in send_workflow_message. -/
def buildWorkflowMessage (env : Env) (routing_key message_type content : String)
    (metadata : Dict) : Dict :=
  [("id", .str env.newId),
   ("type", .str message_type),
   ("content", .str content),
   ("timestamp", .str env.now),
   ("routing_key", .str routing_key),
   ("metadata", .obj metadata)]

/-- MessagePublisher.send_workflow_message, lines 80-114: archive to the
workflow folder, then publish to the topic exchange; no quota check. -/
def send_workflow_message (env : Env) (routing_key message_type content : String)
    (metadata : Dict) (w : World) : Option Dict × World :=
  let message := buildWorkflowMessage env routing_key message_type content metadata
  match upload_json ("/workflow/messages/" ++ env.newId ++ ".json") message w with
  | (false, w) => (none, w)
  | (true, w) =>
    match publish_workflow_message routing_key message w with
    | (false, w) => (none, w)
    | (true, w) =>
      (some [("message_id", .str env.newId),
             ("routing_key", .str routing_key),
             ("status", .str "sent"),
             ("timestamp", .str env.now)], w)

/-- The payload built in send_notification lines 231-240. -/
def buildNotificationMessage (env : Env)
    (client_id notification_type content : String) (priority : Int) : Dict :=
  [("id", .str env.newId),
   ("type", .str "system_alert"),
   ("content", .str content),
   ("timestamp", .str env.now),
   ("client_id", .str client_id),
   ("notification_type", .str notification_type),
   ("priority", .num priority),
   ("metadata", .obj [])]

/-- MessagePublisher.send_notification, lines 227-261: archives (ignoring
the result), then publishes; no quota check and no counter update. -/
def send_notification (env : Env) (client_id notification_type content : String)
    (priority : Int) (w : World) : Option Dict × World :=
  let message := buildNotificationMessage env client_id notification_type content priority
  let w := (upload_json (clientMessagePath client_id env.newId) message w).2
  match publish_client_message client_id message w with
  | (false, w) => (none, w)
  | (true, w) =>
    (some [("message_id", .str env.newId),
           ("client_id", .str client_id),
           ("status", .str "sent"),
           ("timestamp", .str env.now)], w)

/-- The envelope update of resend_failed_message lines 275-276: a fresh
timestamp and a bumped retry_count. -/
def resendMessage (message : Dict) (now : String) (r : Int) : Dict :=
  dictSet (dictSet message "timestamp" (.str now)) "retry_count" (.num (r + 1))

/-- MessagePublisher.resend_failed_message, lines 263-293: re-read the
archived envelope (a missing or empty dict fails), stamp a new timestamp,
bump retry_count (TypeError on a non-numeric value is caught and fails),
re-archive ignoring the result, republish and return the publish result. -/
def resend_failed_message (env : Env) (message_id client_id : String)
    (w : World) : Bool × World :=
  match download_json (clientMessagePath client_id message_id) w with
  | none => (false, w)
  | some message =>
    if message.isEmpty then (false, w)
    else
      match (dictGetD (dictSet message "timestamp" (.str env.now))
          "retry_count" (.num 0)).asInt with
      | none => (false, w)
      | some r =>
        let message := resendMessage message env.now r
        let w := (upload_json (clientMessagePath client_id message_id) message w).2
        publish_client_message client_id message w

/-- A raw AMQP body as the consumer can observe it: undecodable bytes,
decodable bytes that are not JSON, or a parsed JSON value (possibly not
an object). -/
inductive Body where
  | notUtf8
  | notJson
  | json (v : JVal)

/-- The channel outcome of processing one delivery. -/
inductive ConsumeAck where
  | acked
  | nackRequeue
  | nackDiscard
deriving DecidableEq

/-- Python dict.get(k) with implicit None default, as a JVal. -/
def dictGetN (d : Dict) (k : String) : JVal :=
  (dictGet d k).getD .null

/-- Shared body of the six per-client handlers (message_consumer.py lines
81-231): build an audit record and upload it; a KeyError on client_id,
content or id, and any Audit Sink failure, is caught inside the handler
and leaves it silent.  extra holds the fields peculiar to one handler
(only system_alert has one). -/
def handle_generic (env : Env) (auditAction fileTag : String) (extra : Dict)
    (message : Dict) (w : World) : World :=
  match dictGet message "client_id", dictGet message "content",
      dictGet message "id" with
  | some cid, some content, some mid =>
    let audit : Dict :=
      [("action", .str auditAction), ("client_id", cid), ("message_id", mid)]
      ++ extra ++
      [("timestamp", .str env.now), ("content", content)]
    (upload_json
      ("/clients/" ++ cid.render ++ "/audit/" ++ fileTag ++ "_" ++ mid.render ++ ".json")
      audit w).2
  | _, _, _ => w

/-- MessageConsumer.handle_document_request, lines 81-104. -/
def handle_document_request (env : Env) (message : Dict) (w : World) : World :=
  handle_generic env "document_request_processed" "document_request" [] message w

/-- MessageConsumer.handle_claim_update, lines 106-129. -/
def handle_claim_update (env : Env) (message : Dict) (w : World) : World :=
  handle_generic env "claim_update_processed" "claim_update" [] message w

/-- MessageConsumer.handle_payment_reminder, lines 131-154. -/
def handle_payment_reminder (env : Env) (message : Dict) (w : World) : World :=
  handle_generic env "payment_reminder_processed" "payment_reminder" [] message w

/-- MessageConsumer.handle_enrollment_notification, lines 156-179. -/
def handle_enrollment_notification (env : Env) (message : Dict) (w : World) : World :=
  handle_generic env "enrollment_notification_processed" "enrollment_notification"
    [] message w

/-- MessageConsumer.handle_beneficiary_update, lines 181-204. -/
def handle_beneficiary_update (env : Env) (message : Dict) (w : World) : World :=
  handle_generic env "beneficiary_update_processed" "beneficiary_update" [] message w

/-- MessageConsumer.handle_system_alert, lines 206-231. -/
def handle_system_alert (env : Env) (message : Dict) (w : World) : World :=
  handle_generic env "system_alert_processed" "system_alert"
    [("notification_type", dictGetD message "notification_type" (.str "general"))]
    message w

/-- Dispatch table of process_message lines 40-53: an unknown type is
only logged. -/
def dispatchClientMessage (env : Env) (message : Dict) (w : World) : World :=
  let t := dictGet message "type"
  if isStrVal t "document_request" then handle_document_request env message w
  else if isStrVal t "claim_update" then handle_claim_update env message w
  else if isStrVal t "payment_reminder" then handle_payment_reminder env message w
  else if isStrVal t "enrollment_notification" then
    handle_enrollment_notification env message w
  else if isStrVal t "beneficiary_update" then handle_beneficiary_update env message w
  else if isStrVal t "system_alert" then handle_system_alert env message w
  else w

/-- MessageConsumer.process_message, lines 27-79.  A UnicodeDecodeError
from body.decode falls into the generic except clause (requeue), only a
json.JSONDecodeError reaches the discard clause, and a decoded non-object
raises AttributeError at message.get (requeue).  For an object, handler
and delivery-confirmation upload results are swallowed and the message is
acknowledged. -/
def process_message (env : Env) (body : Body) (w : World) : ConsumeAck × World :=
  match body with
  | .notUtf8 => (.nackRequeue, w)
  | .notJson => (.nackDiscard, w)
  | .json (.obj message) =>
    let client_id := dictGetN message "client_id"
    let message_id := dictGetN message "id"
    let message_type := dictGetN message "type"
    let w := dispatchClientMessage env message w
    let confirmation : Dict :=
      [("message_id", message_id), ("client_id", client_id),
       ("processed", .str env.now), ("status", .str "delivered"),
       ("message_type", message_type)]
    let w := (upload_json
      ("/clients/" ++ client_id.render ++ "/audit/delivery-" ++ message_id.render ++ ".json")
      confirmation w).2
    (.acked, w)
  | .json _ => (.nackRequeue, w)

/-- Shared body of the three workflow handlers (lines 272-336): a KeyError
on id and any Audit Sink failure is caught inside the handler. -/
def handle_workflow_generic (env : Env) (auditAction fileTag : String)
    (message : Dict) (routing_key : String) (w : World) : World :=
  match dictGet message "id" with
  | some mid =>
    let audit : Dict :=
      [("action", .str auditAction), ("routing_key", .str routing_key),
       ("message_id", mid), ("timestamp", .str env.now),
       ("content", dictGetD message "content" (.str ""))]
    (upload_json ("/workflow/audit/" ++ fileTag ++ "_" ++ mid.render ++ ".json")
      audit w).2
  | none => w

/-- MessageConsumer.handle_enrollment_workflow, lines 272-292. -/
def handle_enrollment_workflow (env : Env) (message : Dict) (routing_key : String)
    (w : World) : World :=
  handle_workflow_generic env "enrollment_workflow_processed" "enrollment"
    message routing_key w

/-- MessageConsumer.handle_claims_workflow, lines 294-314. -/
def handle_claims_workflow (env : Env) (message : Dict) (routing_key : String)
    (w : World) : World :=
  handle_workflow_generic env "claims_workflow_processed" "claims"
    message routing_key w

/-- MessageConsumer.handle_payments_workflow, lines 316-336. -/
def handle_payments_workflow (env : Env) (message : Dict) (routing_key : String)
    (w : World) : World :=
  handle_workflow_generic env "payments_workflow_processed" "payments"
    message routing_key w

/-- MessageConsumer.process_workflow_message, lines 233-270.  There is no
json.JSONDecodeError clause here: every failure, a malformed body
included, falls into the single generic except clause and is nacked with
requeue=True.  For an object the archival result is swallowed and the
message is acknowledged. -/
def process_workflow_message (env : Env) (routing_key : String) (body : Body)
    (w : World) : ConsumeAck × World :=
  match body with
  | .notUtf8 => (.nackRequeue, w)
  | .notJson => (.nackRequeue, w)
  | .json (.obj message) =>
    let message_id := dictGetN message "id"
    let w :=
      if routing_key.startsWith "enrollment." then
        handle_enrollment_workflow env message routing_key w
      else if routing_key.startsWith "claims." then
        handle_claims_workflow env message routing_key w
      else if routing_key.startsWith "payments." then
        handle_payments_workflow env message routing_key w
      else w
    let archived : Dict :=
      [("message", .obj message), ("routing_key", .str routing_key),
       ("processed_at", .str env.now), ("status", .str "processed")]
    let w := (upload_json ("/workflow/processed/" ++ message_id.render ++ ".json")
      archived w).2
    (.acked, w)
  | .json _ => (.nackRequeue, w)

/-- Python MessageType(value): succeeds exactly on the six member
strings, raises ValueError otherwise. -/
def parseMessageType : JVal → Option MessageType
  | .str "document_request" => some .document_request
  | .str "claim_update" => some .claim_update
  | .str "payment_reminder" => some .payment_reminder
  | .str "enrollment_notification" => some .enrollment_notification
  | .str "beneficiary_update" => some .beneficiary_update
  | .str "system_alert" => some .system_alert
  | _ => none

/-- Construction of a MessageCreate from a raw bulk item (message_publisher
lines 199-205): a missing or invalid type, missing content, a client_id or
content violating the declared pydantic length bounds, or non-list/non-dict
attachments/metadata, raise and land the item in the failed bucket.
String coercion subtleties of pydantic are abstracted: the fields must
already be of the declared shapes. -/
def buildMessageCreate (m : Dict) (cid : String) : Option MessageCreate :=
  match dictGet m "type" with
  | none => none
  | some tv =>
    match parseMessageType tv with
    | none => none
    | some mt =>
      match dictGet m "content" with
      | some (.str content) =>
        if 3 ≤ cid.length ∧ cid.length ≤ 50 ∧ 1 ≤ content.length then
          match dictGetD m "attachments" (.arr []), dictGetD m "metadata" (.obj []) with
          | .arr atts, .obj md =>
            some { client_id := cid, message_type := mt, content := content,
                   attachments := atts, metadata := md }
          | _, _ => none
        else none
      | _ => none

/-- Which bucket of the bulk result one item lands in. -/
inductive BulkOutcome where
  | success (result : Dict)
  | limitHit (entry : Dict)
  | fail (entry : Dict)

/-- The loop body of send_bulk_messages, lines 186-220.  Exception
message texts of KeyError and validation errors are abstracted to fixed
strings; the source only stores str(e) in the failed entry. -/
def bulk_item (env : Env) (m : Dict) (w : World) : BulkOutcome × World :=
  match dictGet m "client_id" with
  | none =>
    (.fail [("client_id", .str "unknown"), ("error", .str "KeyError: client_id")], w)
  | some cidVal =>
    let client_id := cidVal.render
    match check_message_limit env client_id w with
    | (false, w) =>
      (.limitHit [("client_id", cidVal), ("error", .str "Daily limit exceeded")], w)
    | (true, w) =>
      match buildMessageCreate m client_id with
      | none => (.fail [("client_id", cidVal), ("error", .str "validation error")], w)
      | some md =>
        match send_client_message env client_id md w with
        | (.sent r, w) => (.success r, w)
        | (.failure, w) =>
          (.fail [("client_id", cidVal), ("error", .str "Failed to send message")], w)
        | (.limitExceeded, w) =>
          (.fail [("client_id", cidVal),
            ("error", .str ("Daily limit exceeded for client " ++ client_id))], w)

/-- The three buckets returned by send_bulk_messages, each in input
order. -/
structure BulkResults where
  successful : List Dict
  failed : List Dict
  limit_exceeded : List Dict

/-- MessagePublisher.send_bulk_messages, lines 178-225: every item is
processed in order, each appending to exactly one bucket; a fresh uuid per
item is irrelevant to the stated claims, so one Env serves the batch. -/
def send_bulk_messages (env : Env) (msgs : List Dict) (w : World) :
    BulkResults × World :=
  match msgs with
  | [] => (⟨[], [], []⟩, w)
  | m :: rest =>
    match bulk_item env m w with
    | (outcome, w) =>
      match send_bulk_messages env rest w with
      | (res, w) =>
        match outcome with
        | .success r => ({ res with successful := r :: res.successful }, w)
        | .limitHit e => ({ res with limit_exceeded := e :: res.limit_exceeded }, w)
        | .fail e => ({ res with failed := e :: res.failed }, w)

/-- One channel request issued by AMQPManager. -/
inductive AmqpOp where
  | exchangeDeclare (name kind : String) (durable : Bool)
  | queueDeclare (queue : String) (durable : Bool) (args : Dict)
  | queueBind (exchange queue routingKey : String)

/-- AMQPManager.setup_infrastructure, amqp_manager.py lines 68-96: the
three exchange declarations, in order. -/
def setup_infrastructure : List AmqpOp :=
  [.exchangeDeclare "insurance.direct" "direct" true,
   .exchangeDeclare "insurance.workflow" "topic" true,
   .exchangeDeclare "insurance.dlx" "direct" true]

/-- The per-client queue arguments dict, amqp_manager.py lines 107-113. -/
def clientQueueArguments (client_id : String) (limit : Int) : Dict :=
  [("x-message-ttl", .num 86400000),
   ("x-max-length", .num limit),
   ("x-overflow", .str "reject-publish"),
   ("x-dead-letter-exchange", .str "insurance.dlx"),
   ("x-dead-letter-routing-key", .str ("failed." ++ client_id))]

/-- AMQPManager.create_client_queue, lines 98-146, as the sequence of
channel requests it issues.  Note the Python idiom on line 104,
message_limit or self.daily_message_limit: None and 0 are both falsy, so
a limit of 0 silently falls back to the configured daily limit. -/
def create_client_queue (dailyLimit : Int) (client_id : String)
    (message_limit : Option Int) : List AmqpOp :=
  let limit :=
    match message_limit with
    | none => dailyLimit
    | some l => if l = 0 then dailyLimit else l
  [.queueDeclare ("client." ++ client_id) true (clientQueueArguments client_id limit),
   .queueBind "insurance.direct" ("client." ++ client_id) client_id,
   .queueDeclare ("failed." ++ client_id) true [],
   .queueBind "insurance.dlx" ("failed." ++ client_id) ("failed." ++ client_id)]

section SmokeChecks

def w0 : World :=
  { files := [(metadataPath "c1",
      [("message_count_today", .num 3), ("last_reset", .str "2026-10-12")])],
    failUploads := [], publishFail := false, trace := [] }

def env0 : Env :=
  { today := "2026-10-12", now := "2026-10-12T10:00:00", newId := "m1",
    dailyLimit := 10 }

example : (check_message_limit env0 "c1" w0).1 = true := rfl

example : (check_message_limit { env0 with dailyLimit := 3 } "c1" w0).1 = false := rfl

example : (increment_message_counter env0 "c1" w0).2.files =
    [(metadataPath "c1",
      [("message_count_today", .num 4), ("last_reset", .str "2026-10-12"),
       ("last_message_sent", .str "2026-10-12T10:00:00")])] := rfl

def mc0 : MessageCreate :=
  { client_id := "c1", message_type := .document_request, content := "hello",
    attachments := [], metadata := [] }

example : (send_client_message env0 "c1" mc0 w0).1.isSent = true := rfl

example :
    (send_client_message { env0 with dailyLimit := 3 } "c1" mc0 w0).1 =
      SendResult.limitExceeded := rfl

example :
    (send_client_message env0 "c1" mc0
      { w0 with failUploads := [clientMessagePath "c1" "m1"] }).1.isSent = false := rfl

example : (resend_failed_message env0 "m7" "c1"
    { w0 with files := w0.files ++
        [(clientMessagePath "c1" "m7", [("id", .str "m7"), ("retry_count", .num 2)])] }).1
    = true := rfl

/-- A world whose client c1 metadata shows a stale reset date and a
mid-day counter of 5. -/
def wStale : World :=
  { files := [(metadataPath "c1",
      [("message_count_today", .num 5), ("last_reset", .str "2026-10-11")])],
    failUploads := [], publishFail := false, trace := [] }

/-- A well-formed document_request delivery. -/
def msgDoc : Dict :=
  [("id", .str "m1"), ("type", .str "document_request"),
   ("client_id", .str "c1"), ("content", .str "x")]

/-- A world in which both the handler's audit write and the delivery
confirmation write fail. -/
def wAuditFail : World :=
  { files := [],
    failUploads := ["/clients/c1/audit/document_request_m1.json",
                    "/clients/c1/audit/delivery-m1.json"],
    publishFail := false, trace := [] }

/-- A world in which both the client archive path for message m1 and the
workflow archive path for m1 fail, while client c1 is under quota. -/
def wArchiveFail : World :=
  { files := [(metadataPath "c1",
      [("message_count_today", .num 3), ("last_reset", .str "2026-10-12")])],
    failUploads := [clientMessagePath "c1" "m1", "/workflow/messages/m1.json"],
    publishFail := false, trace := [] }

/-- A stale-reset world in which the archive write for message m1 fails:
the quota check will persist a counter reset even though the send fails.  -/
def wStaleFail : World :=
  { files := [(metadataPath "c1",
      [("message_count_today", .num 5), ("last_reset", .str "2026-10-11")])],
    failUploads := [clientMessagePath "c1" "m1"],
    publishFail := false, trace := [] }

/-- A world holding client c1 metadata and an archived message m7 with
retry_count 2. -/
def wResend : World :=
  { files := [(metadataPath "c1",
      [("message_count_today", .num 3), ("last_reset", .str "2026-10-12")]),
     (clientMessagePath "c1" "m7", [("id", .str "m7"), ("retry_count", .num 2)])],
    failUploads := [], publishFail := false, trace := [] }

/-- Bulk items for clients aaa (over quota), bbb and ccc (under quota). -/
def itemA : Dict :=
  [("client_id", .str "aaa"), ("type", .str "document_request"), ("content", .str "x")]

def itemB : Dict :=
  [("client_id", .str "bbb"), ("type", .str "claim_update"), ("content", .str "y")]

def itemC : Dict :=
  [("client_id", .str "ccc"), ("type", .str "payment_reminder"), ("content", .str "z")]

/-- A world in which client aaa has exhausted its quota of 10 while bbb
and ccc have not. -/
def wBulk : World :=
  { files := [(metadataPath "aaa",
      [("message_count_today", .num 10), ("last_reset", .str "2026-10-12")]),
     (metadataPath "bbb",
      [("message_count_today", .num 0), ("last_reset", .str "2026-10-12")]),
     (metadataPath "ccc",
      [("message_count_today", .num 0), ("last_reset", .str "2026-10-12")])],
    failUploads := [], publishFail := false, trace := [] }

example :
    (send_bulk_messages env0 [itemA, itemB, itemC] wBulk).1.successful =
      [sentResult env0 "bbb", sentResult env0 "ccc"] ∧
    (send_bulk_messages env0 [itemA, itemB, itemC] wBulk).1.failed = [] ∧
    (send_bulk_messages env0 [itemA, itemB, itemC] wBulk).1.limit_exceeded =
      [[("client_id", .str "aaa"), ("error", .str "Daily limit exceeded")]] :=
  ⟨rfl, rfl, rfl⟩

end SmokeChecks

/-- Whether an event is a broker publish attempt. -/
def Event.isPublishCall : Event → Bool
  | .publish _ _ _ _ => true
  | .upload _ _ => false

/-- The broker publish attempts of a trace, in order. -/
def publishCalls (t : List Event) : List Event :=
  t.filter Event.isPublishCall

/-! ## Dictionary and path lemmas -/

theorem dictGet_dictSet_self {α : Type} (d : List (String × α)) (k : String) (v : α) :
    dictGet (dictSet d k v) k = some v := by
  induction d with
  | nil => simp [dictSet, dictGet]
  | cons hd tl ih =>
    obtain ⟨k', v'⟩ := hd
    by_cases h : k' = k
    · simp [dictSet, dictGet, h]
    · simp [dictSet, dictGet, h, ih]

theorem dictGet_dictSet_ne {α : Type} (d : List (String × α)) {k' k : String} (v : α)
    (h : k' ≠ k) : dictGet (dictSet d k' v) k = dictGet d k := by
  induction d with
  | nil => simp [dictSet, dictGet, h]
  | cons hd tl ih =>
    obtain ⟨k₀, v₀⟩ := hd
    by_cases h0 : k₀ = k'
    · subst h0; simp [dictSet, dictGet, h]
    · simp [dictSet, dictGet, h0, ih]

/-- The archive path of a message can never be the metadata path of the
same client: their lengths differ for every message id. -/
theorem clientMessagePath_ne_metadataPath (client_id message_id : String) :
    clientMessagePath client_id message_id ≠ metadataPath client_id := by
  intro h
  have hl := congrArg String.length h
  simp only [clientMessagePath, metadataPath, String.length_append] at hl
  have h1 : ("/clients/" : String).length = 9 := rfl
  have h2 : ("/messages/" : String).length = 10 := rfl
  have h3 : (".json" : String).length = 5 := rfl
  have h4 : ("/metadata.json" : String).length = 14 := rfl
  omega

/-! ## Behaviour of the quota check -/

/-- When last_reset is today, the check mutates nothing and compares the
stored counter against the daily limit. -/
theorem check_message_limit_today {env : Env} {client_id : String} {w : World}
    {md : Dict} {c : Int}
    (hmd : dictGet w.files (metadataPath client_id) = some md)
    (hne : md.isEmpty = false)
    (hlr : isStrVal (dictGet md "last_reset") env.today = true)
    (hc : (dictGetD md "message_count_today" (.num 0)).asInt = some c) :
    check_message_limit env client_id w = (decide (c < env.dailyLimit), w) := by
  simp [check_message_limit, get_client_metadata, download_json, hmd, hne, hlr, hc]

/-- When last_reset is not today, the counter is reset to 0 and the reset
state is written back before the comparison, which is therefore taken
against 0. -/
theorem check_message_limit_stale {env : Env} {client_id : String} {w : World}
    {md : Dict}
    (hmd : dictGet w.files (metadataPath client_id) = some md)
    (hne : md.isEmpty = false)
    (hlr : isStrVal (dictGet md "last_reset") env.today = false) :
    check_message_limit env client_id w =
      (decide ((0:Int) < env.dailyLimit),
       (update_client_metadata client_id (resetMetadata md env.today) w).2) := by
  have hget : dictGet (resetMetadata md env.today) "message_count_today"
      = some (.num 0) := by
    rw [resetMetadata, dictGet_dictSet_ne _ _ (by decide)]
    exact dictGet_dictSet_self _ _ _
  simp [check_message_limit, get_client_metadata, download_json, hmd, hne, hlr,
    dictGetD, hget, JVal.asInt]

/-- Effect of upload_json when the path is set to fail. -/
theorem upload_json_fail {path : String} {d : Dict} {w : World}
    (h : path ∈ w.failUploads) :
    upload_json path d w =
      (false, { w with trace := w.trace ++ [.upload path false] }) := by
  simp [upload_json, h]

/-- Effect of upload_json when the path is not set to fail. -/
theorem upload_json_ok {path : String} {d : Dict} {w : World}
    (h : path ∉ w.failUploads) :
    upload_json path d w =
      (true, { w with files := dictSet w.files path d,
                      trace := w.trace ++ [.upload path true] }) := by
  simp [upload_json, h]

/-- An upload event extends no broker publish history. -/
theorem publishCalls_append_upload (t : List Event) (p : String) (b : Bool) :
    publishCalls (t ++ [.upload p b]) = publishCalls t := by
  simp [publishCalls, List.filter_append, Event.isPublishCall]

/-- Closed form of one publish attempt. -/
theorem publish_message_run (exchange rk : String) (m : Dict) (w : World) :
    publish_message exchange rk m w =
      (!w.publishFail,
       { w with trace := w.trace ++ [.publish exchange rk m (!w.publishFail)] }) := by
  unfold publish_message
  by_cases h : w.publishFail <;> simp [h]

/-- Closed form of the counter increment when the metadata is present
with a numeric counter: it is exactly the metadata write-back of the
bumped dict. -/
theorem increment_message_counter_run {env : Env} {client_id : String} {w : World}
    {md : Dict} {c : Int}
    (hmd : dictGet w.files (metadataPath client_id) = some md)
    (hne : md.isEmpty = false)
    (hc : (dictGetD md "message_count_today" (.num 0)).asInt = some c) :
    increment_message_counter env client_id w =
      upload_json (metadataPath client_id) (incrementMetadata md env.now c) w := by
  simp [increment_message_counter, get_client_metadata, download_json, hmd, hne, hc,
    update_client_metadata]

/-- The quota check either leaves the world alone or performs exactly one
metadata write-back. -/
theorem check_message_limit_state (env : Env) (client_id : String) (w : World) :
    (check_message_limit env client_id w).2 = w ∨
    ∃ m, (check_message_limit env client_id w).2 =
      (update_client_metadata client_id m w).2 := by
  unfold check_message_limit
  cases hget : get_client_metadata client_id w with
  | none => left; rfl
  | some md =>
    dsimp only
    by_cases hne : md.isEmpty
    · rw [if_pos hne]; left; rfl
    · rw [if_neg hne]
      by_cases hlr : isStrVal (dictGet md "last_reset") env.today
      · rw [if_pos hlr]; dsimp only
        cases (dictGetD md "message_count_today" (JVal.num 0)).asInt with
        | none => left; rfl
        | some c => left; rfl
      · rw [if_neg hlr]; dsimp only
        cases (dictGetD (resetMetadata md env.today) "message_count_today"
            (JVal.num 0)).asInt with
        | none => right; exact ⟨_, rfl⟩
        | some c => right; exact ⟨_, rfl⟩

/-- The quota check preserves failUploads, publishFail and the publish
history. -/
theorem check_message_limit_frame (env : Env) (client_id : String) (w : World) :
    (check_message_limit env client_id w).2.failUploads = w.failUploads ∧
    (check_message_limit env client_id w).2.publishFail = w.publishFail ∧
    publishCalls (check_message_limit env client_id w).2.trace =
      publishCalls w.trace := by
  rcases check_message_limit_state env client_id w with h | ⟨m, h⟩
  · rw [h]; exact ⟨rfl, rfl, rfl⟩
  · rw [h]
    unfold update_client_metadata upload_json
    split <;> exact ⟨rfl, rfl, publishCalls_append_upload _ _ _⟩

/-- A denied check makes send_client_message raise the limit error with no
further effect. -/
theorem send_client_message_of_check_false {env : Env} {client_id : String}
    {message_data : MessageCreate} {w w' : World}
    (h : check_message_limit env client_id w = (false, w')) :
    send_client_message env client_id message_data w = (.limitExceeded, w') := by
  simp [send_client_message, h]

/-- An allowed check means the call never raises the limit error. -/
theorem send_client_message_of_check_true {env : Env} {client_id : String}
    {message_data : MessageCreate} {w w' : World}
    (h : check_message_limit env client_id w = (true, w')) :
    (send_client_message env client_id message_data w).1 ≠ SendResult.limitExceeded := by
  simp only [send_client_message, h]
  rcases hup : upload_json (clientMessagePath client_id env.newId)
      (buildClientMessage env client_id message_data) w' with ⟨ok, w2⟩
  cases ok
  · simp
  · rcases hpub : publish_client_message client_id
        (buildClientMessage env client_id message_data) w2 with ⟨ok2, w3⟩
    cases ok2 <;> simp [hpub]

/-! ## Claim theorems -/

/-- C1: for a client whose stored metadata has last_reset equal to today
and counter c, with daily limit N, check_message_limit returns the value
of c less than N, and send_client_message raises the distinct
LimitExceeded error exactly when c is at least N (so with counts 0,1,...
the N-th attempt of a day is admitted and the (N+1)-th, at count N, is
denied). -/
theorem C1_daily_limit_admission (env : Env) (client_id : String)
    (message_data : MessageCreate) (w : World) (md : Dict) (c : Int)
    (hmd : dictGet w.files (metadataPath client_id) = some md)
    (hne : md.isEmpty = false)
    (hlr : isStrVal (dictGet md "last_reset") env.today = true)
    (hc : (dictGetD md "message_count_today" (.num 0)).asInt = some c) :
    (check_message_limit env client_id w).1 = decide (c < env.dailyLimit) ∧
    ((send_client_message env client_id message_data w).1 = SendResult.limitExceeded
      ↔ ¬ c < env.dailyLimit) := by
  have hch := check_message_limit_today (w := w) hmd hne hlr hc
  refine ⟨by rw [hch], ?_⟩
  by_cases hlt : c < env.dailyLimit
  · have hch' : check_message_limit env client_id w = (true, w) := by
      rw [hch]; simp [hlt]
    simpa [hlt] using
      @send_client_message_of_check_true env client_id message_data w w hch'
  · have hch' : check_message_limit env client_id w = (false, w) := by
      rw [hch]; simp [hlt]
    rw [send_client_message_of_check_false hch']
    simpa using hlt

/-- C1 witness: with the concrete metadata of w0 (count 3, reset today)
the check admits at limit 10 and the send is not denied; at limit 3 it is
denied. -/
theorem C1_daily_limit_admission_witness :
    ((check_message_limit env0 "c1" w0).1 = decide ((3:Int) < env0.dailyLimit) ∧
      ((send_client_message env0 "c1" mc0 w0).1 = SendResult.limitExceeded
        ↔ ¬ (3:Int) < env0.dailyLimit)) ∧
    ((check_message_limit { env0 with dailyLimit := 3 } "c1" w0).1 =
        decide ((3:Int) < (3:Int)) ∧
      ((send_client_message { env0 with dailyLimit := 3 } "c1" mc0 w0).1 =
          SendResult.limitExceeded ↔ ¬ (3:Int) < (3:Int))) :=
  ⟨C1_daily_limit_admission env0 "c1" mc0 w0 _ 3 rfl rfl rfl rfl,
   C1_daily_limit_admission { env0 with dailyLimit := 3 } "c1" mc0 w0 _ 3
     rfl rfl rfl rfl⟩

/-- Every bulk item lands in exactly one bucket: the three bucket sizes
always sum to the batch size. -/
theorem send_bulk_messages_partition (env : Env) (msgs : List Dict) (w : World) :
    (send_bulk_messages env msgs w).1.successful.length +
    (send_bulk_messages env msgs w).1.failed.length +
    (send_bulk_messages env msgs w).1.limit_exceeded.length = msgs.length := by
  induction msgs generalizing w with
  | nil => rfl
  | cons m rest ih =>
    rcases hbi : bulk_item env m w with ⟨outcome, w1⟩
    rcases hrec : send_bulk_messages env rest w1 with ⟨res, w2⟩
    have hlen := ih w1
    simp only [hrec] at hlen
    cases outcome <;> simp [send_bulk_messages, hbi, hrec] <;> omega

/-- Bulk processing is a left-to-right fold: a batch splits into its
prefix's buckets followed by its suffix's buckets computed in the world
the prefix left behind. -/
theorem send_bulk_messages_append (env : Env) (pre suf : List Dict) (w : World) :
    send_bulk_messages env (pre ++ suf) w =
      (⟨(send_bulk_messages env pre w).1.successful ++
          (send_bulk_messages env suf (send_bulk_messages env pre w).2).1.successful,
        (send_bulk_messages env pre w).1.failed ++
          (send_bulk_messages env suf (send_bulk_messages env pre w).2).1.failed,
        (send_bulk_messages env pre w).1.limit_exceeded ++
          (send_bulk_messages env suf (send_bulk_messages env pre w).2).1.limit_exceeded⟩,
       (send_bulk_messages env suf (send_bulk_messages env pre w).2).2) := by
  induction pre generalizing w with
  | nil => rfl
  | cons m rest ih =>
    rcases hbi : bulk_item env m w with ⟨outcome, w1⟩
    rcases hrec : send_bulk_messages env (rest ++ suf) w1 with ⟨resL, w2⟩
    have hres := ih w1
    rw [hrec] at hres
    cases outcome <;>
      simp_all [send_bulk_messages, hbi]

/-- An over-quota item (metadata present, last_reset today, counter at or
above the limit) contributes exactly its limit_exceeded entry and leaves
the world untouched. -/
theorem bulk_item_over_quota {env : Env} {m : Dict} {w : World} {cv : JVal}
    {md : Dict} {c : Int}
    (hcid : dictGet m "client_id" = some cv)
    (hmd : dictGet w.files (metadataPath cv.render) = some md)
    (hne : md.isEmpty = false)
    (hlr : isStrVal (dictGet md "last_reset") env.today = true)
    (hc : (dictGetD md "message_count_today" (.num 0)).asInt = some c)
    (hge : ¬ c < env.dailyLimit) :
    bulk_item env m w =
      (.limitHit [("client_id", cv), ("error", .str "Daily limit exceeded")], w) := by
  have hch : check_message_limit env cv.render w = (false, w) := by
    rw [check_message_limit_today hmd hne hlr hc]; simp [hge]
  simp [bulk_item, hcid, hch]

/-- C8: send_bulk_messages classifies every item into exactly one of the
three buckets (the sizes sum to the batch size); processing is an
in-order fold over independent items (a batch is its prefix's buckets
followed by its suffix's, in order); and an over-quota item lands in
limit_exceeded, leaves the world untouched, and leaves every other item's
outcome and position exactly as if it were absent from the batch. -/
theorem C8_bulk_buckets_and_isolation (env : Env) (msgs pre suf rest : List Dict)
    (m : Dict) (w : World) (cv : JVal) (md : Dict) (c : Int)
    (hcid : dictGet m "client_id" = some cv)
    (hmd : dictGet w.files (metadataPath cv.render) = some md)
    (hne : md.isEmpty = false)
    (hlr : isStrVal (dictGet md "last_reset") env.today = true)
    (hc : (dictGetD md "message_count_today" (.num 0)).asInt = some c)
    (hge : ¬ c < env.dailyLimit) :
    ((send_bulk_messages env msgs w).1.successful.length +
      (send_bulk_messages env msgs w).1.failed.length +
      (send_bulk_messages env msgs w).1.limit_exceeded.length = msgs.length) ∧
    (send_bulk_messages env (pre ++ suf) w =
      (⟨(send_bulk_messages env pre w).1.successful ++
          (send_bulk_messages env suf (send_bulk_messages env pre w).2).1.successful,
        (send_bulk_messages env pre w).1.failed ++
          (send_bulk_messages env suf (send_bulk_messages env pre w).2).1.failed,
        (send_bulk_messages env pre w).1.limit_exceeded ++
          (send_bulk_messages env suf (send_bulk_messages env pre w).2).1.limit_exceeded⟩,
       (send_bulk_messages env suf (send_bulk_messages env pre w).2).2)) ∧
    (send_bulk_messages env (m :: rest) w =
      (⟨(send_bulk_messages env rest w).1.successful,
        (send_bulk_messages env rest w).1.failed,
        [("client_id", cv), ("error", .str "Daily limit exceeded")] ::
          (send_bulk_messages env rest w).1.limit_exceeded⟩,
       (send_bulk_messages env rest w).2)) := by
  refine ⟨send_bulk_messages_partition env msgs w,
    send_bulk_messages_append env pre suf w, ?_⟩
  rcases hrec : send_bulk_messages env rest w with ⟨res, w2⟩
  simp [send_bulk_messages, bulk_item_over_quota hcid hmd hne hlr hc hge, hrec]

/-- C8 witness: the three-item batch over wBulk, where aaa is at its
limit of 10 and bbb, ccc are not: the buckets partition the batch, the
batch folds as prefix-then-suffix, and dropping the over-quota aaa item
changes nothing but its own limit_exceeded entry. -/
theorem C8_bulk_buckets_and_isolation_witness :
    ((send_bulk_messages env0 [itemA, itemB, itemC] wBulk).1.successful.length +
      (send_bulk_messages env0 [itemA, itemB, itemC] wBulk).1.failed.length +
      (send_bulk_messages env0 [itemA, itemB, itemC] wBulk).1.limit_exceeded.length
        = [itemA, itemB, itemC].length) ∧
    (send_bulk_messages env0 ([itemA] ++ [itemB, itemC]) wBulk =
      (⟨(send_bulk_messages env0 [itemA] wBulk).1.successful ++
          (send_bulk_messages env0 [itemB, itemC]
            (send_bulk_messages env0 [itemA] wBulk).2).1.successful,
        (send_bulk_messages env0 [itemA] wBulk).1.failed ++
          (send_bulk_messages env0 [itemB, itemC]
            (send_bulk_messages env0 [itemA] wBulk).2).1.failed,
        (send_bulk_messages env0 [itemA] wBulk).1.limit_exceeded ++
          (send_bulk_messages env0 [itemB, itemC]
            (send_bulk_messages env0 [itemA] wBulk).2).1.limit_exceeded⟩,
       (send_bulk_messages env0 [itemB, itemC]
         (send_bulk_messages env0 [itemA] wBulk).2).2)) ∧
    (send_bulk_messages env0 (itemA :: [itemB, itemC]) wBulk =
      (⟨(send_bulk_messages env0 [itemB, itemC] wBulk).1.successful,
        (send_bulk_messages env0 [itemB, itemC] wBulk).1.failed,
        [("client_id", .str "aaa"), ("error", .str "Daily limit exceeded")] ::
          (send_bulk_messages env0 [itemB, itemC] wBulk).1.limit_exceeded⟩,
       (send_bulk_messages env0 [itemB, itemC] wBulk).2)) :=
  C8_bulk_buckets_and_isolation env0 [itemA, itemB, itemC] [itemA] [itemB, itemC]
    [itemB, itemC] itemA wBulk (.str "aaa")
    [("message_count_today", .num 10), ("last_reset", .str "2026-10-12")] 10
    rfl rfl rfl rfl rfl (by decide)

/-- C9 counterexample: create_client_queue called with a limit of 0
declares x-max-length as the configured daily limit 10, not 0 — the
Python idiom message_limit or daily_message_limit treats 0 as absent —
refuting the claim for every limit. -/
theorem C9_counterexample :
    create_client_queue 10 "c1" (some 0) =
      [.queueDeclare "client.c1" true (clientQueueArguments "c1" 10),
       .queueBind "insurance.direct" "client.c1" "c1",
       .queueDeclare "failed.c1" true [],
       .queueBind "insurance.dlx" "failed.c1" "failed.c1"] ∧
    dictGet (clientQueueArguments "c1" 10) "x-max-length" = some (.num 10) ∧
    decide ((10:Int) = 0) = false :=
  ⟨rfl, rfl, rfl⟩

/-- C9 (amended): for every client id and every nonzero limit (a limit of
0, like an omitted one, falls back to daily_message_limit),
create_client_queue declares the durable queue client.id with exactly the
claimed argument set — ttl 86400000 ms, max-length the limit, overflow
reject-publish, dead-letter exchange insurance.dlx with routing key
failed.id — binds it to insurance.direct under the client id, then
declares the durable failed.id queue bound to insurance.dlx; and
setup_infrastructure declares insurance.direct (direct, durable),
insurance.workflow (topic, durable) and insurance.dlx (direct, durable). -/
theorem C9_topology_declarations (dailyLimit : Int) (client_id : String) (l : Int)
    (hl : l ≠ 0) :
    create_client_queue dailyLimit client_id (some l) =
      [.queueDeclare ("client." ++ client_id) true (clientQueueArguments client_id l),
       .queueBind "insurance.direct" ("client." ++ client_id) client_id,
       .queueDeclare ("failed." ++ client_id) true [],
       .queueBind "insurance.dlx" ("failed." ++ client_id) ("failed." ++ client_id)] ∧
    clientQueueArguments client_id l =
      [("x-message-ttl", .num 86400000),
       ("x-max-length", .num l),
       ("x-overflow", .str "reject-publish"),
       ("x-dead-letter-exchange", .str "insurance.dlx"),
       ("x-dead-letter-routing-key", .str ("failed." ++ client_id))] ∧
    setup_infrastructure =
      [.exchangeDeclare "insurance.direct" "direct" true,
       .exchangeDeclare "insurance.workflow" "topic" true,
       .exchangeDeclare "insurance.dlx" "direct" true] := by
  refine ⟨?_, rfl, rfl⟩
  simp [create_client_queue, hl]

/-- C9 witness: the amended declaration shape at client c1 with limit 25. -/
theorem C9_topology_declarations_witness :
    create_client_queue 10 "c1" (some 25) =
      [.queueDeclare ("client." ++ "c1") true (clientQueueArguments "c1" 25),
       .queueBind "insurance.direct" ("client." ++ "c1") "c1",
       .queueDeclare ("failed." ++ "c1") true [],
       .queueBind "insurance.dlx" ("failed." ++ "c1") ("failed." ++ "c1")] ∧
    clientQueueArguments "c1" 25 =
      [("x-message-ttl", .num 86400000),
       ("x-max-length", .num 25),
       ("x-overflow", .str "reject-publish"),
       ("x-dead-letter-exchange", .str "insurance.dlx"),
       ("x-dead-letter-routing-key", .str ("failed." ++ "c1"))] ∧
    setup_infrastructure =
      [.exchangeDeclare "insurance.direct" "direct" true,
       .exchangeDeclare "insurance.workflow" "topic" true,
       .exchangeDeclare "insurance.dlx" "direct" true] :=
  C9_topology_declarations 10 "c1" 25 (by decide)

/-- C10: send_notification performs no quota check and cannot raise the
limit error (its only failure mode is the broker publish: it returns None
exactly when publish fails), never changes the client metadata — so
message_count_today is untouched — and attempts the broker publish even
when the archival upload fails, whose result it ignores; unlike
send_client_message (see C1, C4, C5), which checks quota first, aborts on
archival failure, and increments the counter after a successful publish. -/
theorem C10_notification_bypasses_quota (env : Env)
    (client_id notification_type content : String) (priority : Int) (w : World) :
    dictGet (send_notification env client_id notification_type content priority w).2.files
        (metadataPath client_id) = dictGet w.files (metadataPath client_id) ∧
    ((send_notification env client_id notification_type content priority w).1 = none
      ↔ w.publishFail = true) ∧
    (clientMessagePath client_id env.newId ∈ w.failUploads →
      (send_notification env client_id notification_type content priority w).2.trace =
        w.trace ++ [.upload (clientMessagePath client_id env.newId) false,
          .publish "insurance.direct" client_id
            (buildNotificationMessage env client_id notification_type content priority)
            (!w.publishFail)]) ∧
    (clientMessagePath client_id env.newId ∉ w.failUploads →
      (send_notification env client_id notification_type content priority w).2.trace =
        w.trace ++ [.upload (clientMessagePath client_id env.newId) true,
          .publish "insurance.direct" client_id
            (buildNotificationMessage env client_id notification_type content priority)
            (!w.publishFail)]) := by
  rcases hs : send_notification env client_id notification_type content priority w
    with ⟨res, wfin⟩
  by_cases hap : clientMessagePath client_id env.newId ∈ w.failUploads
  · simp only [send_notification, upload_json_fail
      (d := buildNotificationMessage env client_id notification_type content priority)
      hap, publish_client_message, publish_message_run] at hs
    by_cases hpf : w.publishFail
    · simp only [hpf, Bool.not_true] at hs
      injection hs with h1 h2
      subst h1; subst h2
      exact ⟨rfl, by simp [hpf], fun _ => by simp [hpf], fun hap' => absurd hap hap'⟩
    · have hpf' : w.publishFail = false := by simpa using hpf
      simp only [hpf', Bool.not_false] at hs
      injection hs with h1 h2
      subst h1; subst h2
      exact ⟨rfl, by simp [hpf'], fun _ => by simp [hpf'], fun hap' => absurd hap hap'⟩
  · simp only [send_notification, upload_json_ok
      (d := buildNotificationMessage env client_id notification_type content priority)
      hap, publish_client_message, publish_message_run] at hs
    by_cases hpf : w.publishFail
    · simp only [hpf, Bool.not_true] at hs
      injection hs with h1 h2
      subst h1; subst h2
      refine ⟨?_, by simp [hpf], fun hap' => absurd hap' hap, fun _ => by simp [hpf]⟩
      exact dictGet_dictSet_ne _ _ (clientMessagePath_ne_metadataPath _ _)
    · have hpf' : w.publishFail = false := by simpa using hpf
      simp only [hpf', Bool.not_false] at hs
      injection hs with h1 h2
      subst h1; subst h2
      refine ⟨?_, by simp [hpf'], fun hap' => absurd hap' hap, fun _ => by simp [hpf']⟩
      exact dictGet_dictSet_ne _ _ (clientMessagePath_ne_metadataPath _ _)

/-- C6: resend_failed_message re-reads the archived envelope, stamps a
new timestamp, bumps retry_count by exactly 1 (a missing field counts as
0, via the dictGetD default), re-archives the updated envelope at the
same key, republishes it to the insurance.direct exchange, and touches
nothing else: no quota check and no change to the client metadata, whose
lookup — message_count_today included — is untouched. -/
theorem C6_resend_semantics (env : Env) (message_id client_id : String)
    (w : World) (msg : Dict) (r : Int)
    (hmsg : dictGet w.files (clientMessagePath client_id message_id) = some msg)
    (hne : msg.isEmpty = false)
    (hr : (dictGetD msg "retry_count" (.num 0)).asInt = some r)
    (harch : clientMessagePath client_id message_id ∉ w.failUploads) :
    (resend_failed_message env message_id client_id w).1 = !w.publishFail ∧
    (resend_failed_message env message_id client_id w).2.files =
      dictSet w.files (clientMessagePath client_id message_id)
        (resendMessage msg env.now r) ∧
    (resend_failed_message env message_id client_id w).2.trace =
      w.trace ++
        [.upload (clientMessagePath client_id message_id) true,
         .publish "insurance.direct" client_id (resendMessage msg env.now r)
           (!w.publishFail)] ∧
    dictGet (resendMessage msg env.now r) "retry_count" = some (.num (r + 1)) ∧
    dictGet (resendMessage msg env.now r) "timestamp" = some (.str env.now) ∧
    dictGet (resend_failed_message env message_id client_id w).2.files
        (metadataPath client_id)
      = dictGet w.files (metadataPath client_id) := by
  have hr' : (dictGetD (dictSet msg "timestamp" (.str env.now))
      "retry_count" (.num 0)).asInt = some r := by
    rw [dictGetD, dictGet_dictSet_ne _ _ (by decide)]
    exact hr
  rcases hs : resend_failed_message env message_id client_id w with ⟨res, wfin⟩
  simp only [resend_failed_message, download_json, hmsg, hne, hr',
    Bool.false_eq_true, if_false, upload_json_ok
      (d := resendMessage msg env.now r) harch,
    publish_client_message, publish_message_run] at hs
  injection hs with h1 h2
  subst h1; subst h2
  refine ⟨rfl, rfl, by simp, dictGet_dictSet_self _ _ _, ?_, ?_⟩
  · rw [resendMessage, dictGet_dictSet_ne _ _ (by decide)]
    exact dictGet_dictSet_self _ _ _
  · exact dictGet_dictSet_ne _ _ (clientMessagePath_ne_metadataPath _ _)

/-- C6 witness: resending the archived message m7 of client c1 (stored
retry_count 2) republishes it with retry_count 3, a fresh timestamp, and
the c1 metadata lookup unchanged. -/
theorem C6_resend_semantics_witness :
    (resend_failed_message env0 "m7" "c1" wResend).1 = !wResend.publishFail ∧
    (resend_failed_message env0 "m7" "c1" wResend).2.files =
      dictSet wResend.files (clientMessagePath "c1" "m7")
        (resendMessage [("id", .str "m7"), ("retry_count", .num 2)] env0.now 2) ∧
    (resend_failed_message env0 "m7" "c1" wResend).2.trace =
      wResend.trace ++
        [.upload (clientMessagePath "c1" "m7") true,
         .publish "insurance.direct" "c1"
           (resendMessage [("id", .str "m7"), ("retry_count", .num 2)] env0.now 2)
           (!wResend.publishFail)] ∧
    dictGet (resendMessage [("id", .str "m7"), ("retry_count", .num 2)] env0.now 2)
      "retry_count" = some (.num (2 + 1)) ∧
    dictGet (resendMessage [("id", .str "m7"), ("retry_count", .num 2)] env0.now 2)
      "timestamp" = some (.str env0.now) ∧
    dictGet (resend_failed_message env0 "m7" "c1" wResend).2.files (metadataPath "c1")
      = dictGet wResend.files (metadataPath "c1") :=
  C6_resend_semantics env0 "m7" "c1" wResend _ 2 rfl rfl rfl (by decide)

/-- C7: when last_reset differs from the current date, the counter is set
to 0 and last_reset to today before the allow/deny comparison: the check
returns 0 less than the daily limit and the reset metadata — whose
counter reads 0 and whose last_reset reads today — is what was written
back (and is what the store holds afterwards when the write succeeds). -/
theorem C7_reset_before_decision (env : Env) (client_id : String) (w : World)
    (md : Dict)
    (hmd : dictGet w.files (metadataPath client_id) = some md)
    (hne : md.isEmpty = false)
    (hlr : isStrVal (dictGet md "last_reset") env.today = false) :
    check_message_limit env client_id w =
      (decide ((0:Int) < env.dailyLimit),
       (update_client_metadata client_id (resetMetadata md env.today) w).2) ∧
    dictGet (resetMetadata md env.today) "message_count_today" = some (.num 0) ∧
    dictGet (resetMetadata md env.today) "last_reset" = some (.str env.today) ∧
    (metadataPath client_id ∉ w.failUploads →
      dictGet (check_message_limit env client_id w).2.files (metadataPath client_id)
        = some (resetMetadata md env.today)) := by
  have hstale := check_message_limit_stale (w := w) hmd hne hlr
  refine ⟨hstale, ?_, dictGet_dictSet_self _ _ _, ?_⟩
  · rw [resetMetadata, dictGet_dictSet_ne _ _ (by decide)]
    exact dictGet_dictSet_self _ _ _
  · intro hmem
    rw [hstale]
    simp only [update_client_metadata, upload_json, hmem, if_neg hmem]
    exact dictGet_dictSet_self _ _ _

/-- C7 witness: the stale world wStale (counter 5, last_reset yesterday)
is reset to 0 with today's date before the decision, and the persisted
metadata shows the reset. -/
theorem C7_reset_before_decision_witness :
    check_message_limit env0 "c1" wStale =
      (decide ((0:Int) < env0.dailyLimit),
       (update_client_metadata "c1"
         (resetMetadata [("message_count_today", .num 5),
            ("last_reset", .str "2026-10-11")] env0.today) wStale).2) ∧
    dictGet (resetMetadata [("message_count_today", .num 5),
        ("last_reset", .str "2026-10-11")] env0.today) "message_count_today"
      = some (.num 0) ∧
    dictGet (resetMetadata [("message_count_today", .num 5),
        ("last_reset", .str "2026-10-11")] env0.today) "last_reset"
      = some (.str env0.today) ∧
    (metadataPath "c1" ∉ wStale.failUploads →
      dictGet (check_message_limit env0 "c1" wStale).2.files (metadataPath "c1")
        = some (resetMetadata [("message_count_today", .num 5),
            ("last_reset", .str "2026-10-11")] env0.today)) :=
  C7_reset_before_decision env0 "c1" wStale _ rfl rfl rfl

/-- C2 counterexample: a delivery whose handler audit write and whose
delivery-confirmation write both fail (both uploads appear in the trace
with outcome false) is nevertheless acknowledged, not nacked with
requeue: handler and Audit Sink failures are swallowed, contrary to the
claim. -/
theorem C2_counterexample :
    (process_message env0 (.json (.obj msgDoc)) wAuditFail).1 = ConsumeAck.acked ∧
    (process_message env0 (.json (.obj msgDoc)) wAuditFail).2.trace =
      [.upload "/clients/c1/audit/document_request_m1.json" false,
       .upload "/clients/c1/audit/delivery-m1.json" false] ∧
    ConsumeAck.acked ≠ ConsumeAck.nackRequeue :=
  ⟨rfl, rfl, by decide⟩

/-- C2 amended: every body that decodes to a JSON object is acknowledged,
whatever the world — handler failures are caught inside each handler and
an Audit Sink failure of the delivery confirmation is a swallowed False
return; nack-requeue arises only from the generic except clause (a
non-UTF-8 body, or a decoded body that is not an object). -/
theorem C2_failures_swallowed_and_acked (env : Env) (message : Dict) (w : World)
    (s : String) :
    (process_message env (.json (.obj message)) w).1 = ConsumeAck.acked ∧
    process_message env .notUtf8 w = (ConsumeAck.nackRequeue, w) ∧
    process_message env (.json (.str s)) w = (ConsumeAck.nackRequeue, w) :=
  ⟨rfl, rfl, rfl⟩

/-- C3 counterexample: a valid-UTF-8 but non-JSON body delivered to
process_workflow_message is nacked with requeue=true — the workflow
consumer has no JSONDecodeError clause — contrary to the claim that both
consumers discard undecodable bodies without requeue. -/
theorem C3_counterexample :
    process_workflow_message env0 "enrollment.new" Body.notJson w0 =
      (ConsumeAck.nackRequeue, w0) ∧
    ConsumeAck.nackRequeue ≠ ConsumeAck.nackDiscard :=
  ⟨rfl, by decide⟩

/-- C3 amended: process_message alone discards (requeue=false) a
valid-UTF-8 body that is not JSON; a non-UTF-8 body falls into its
generic except clause and is requeued, and process_workflow_message nacks
every undecodable body with requeue=true. -/
theorem C3_malformed_body_handling (env : Env) (routing_key : String) (w : World) :
    process_message env Body.notJson w = (ConsumeAck.nackDiscard, w) ∧
    process_message env Body.notUtf8 w = (ConsumeAck.nackRequeue, w) ∧
    process_workflow_message env routing_key Body.notJson w =
      (ConsumeAck.nackRequeue, w) ∧
    process_workflow_message env routing_key Body.notUtf8 w =
      (ConsumeAck.nackRequeue, w) :=
  ⟨rfl, rfl, rfl, rfl⟩

/-- C4: on both publish paths the archive write precedes any broker
interaction: when the archive upload fails, send_client_message never
reports sent, send_workflow_message returns None, and neither adds a
single publish attempt to the broker trace. -/
theorem C4_archive_failure_blocks_publish (env : Env) (client_id : String)
    (message_data : MessageCreate) (routing_key message_type content : String)
    (metadata : Dict) (w : World)
    (hc : clientMessagePath client_id env.newId ∈ w.failUploads)
    (hf : "/workflow/messages/" ++ env.newId ++ ".json" ∈ w.failUploads) :
    ((send_client_message env client_id message_data w).1.isSent = false ∧
      publishCalls (send_client_message env client_id message_data w).2.trace
        = publishCalls w.trace) ∧
    ((send_workflow_message env routing_key message_type content metadata w).1
        = none ∧
      publishCalls
        (send_workflow_message env routing_key message_type content metadata w).2.trace
        = publishCalls w.trace) := by
  constructor
  · rcases hch : check_message_limit env client_id w with ⟨allowed, w1⟩
    obtain ⟨hfu, -, hpc⟩ := check_message_limit_frame env client_id w
    rw [hch] at hfu hpc
    cases allowed
    · rw [send_client_message_of_check_false hch]
      exact ⟨rfl, hpc⟩
    · have hupf := upload_json_fail
        (d := buildClientMessage env client_id message_data)
        (w := w1) (hfu ▸ hc)
      simp only [send_client_message, hch, hupf]
      exact ⟨rfl, by rw [publishCalls_append_upload]; exact hpc⟩
  · have hupf := upload_json_fail
      (d := buildWorkflowMessage env routing_key message_type content metadata)
      (w := w) hf
    simp only [send_workflow_message, hupf]
    exact ⟨trivial, publishCalls_append_upload _ _ _⟩

/-- C5 counterexample: on a day rollover (stored last_reset is yesterday,
counter 5) with a failing archive write, send_client_message fails — yet
the stored counter is now 0, not the unchanged 5 the claim requires on
every failure path: check_message_limit persisted its reset before the
failure. -/
theorem C5_counterexample :
    (send_client_message env0 "c1" mc0 wStaleFail).1.isSent = false ∧
    dictGet wStaleFail.files (metadataPath "c1") =
      some [("message_count_today", .num 5), ("last_reset", .str "2026-10-11")] ∧
    dictGet (send_client_message env0 "c1" mc0 wStaleFail).2.files (metadataPath "c1")
      = some [("message_count_today", .num 0), ("last_reset", .str "2026-10-12")] ∧
    decide ((0:Int) = 5) = false :=
  ⟨rfl, rfl, rfl, rfl⟩

/-- C5 (amended): for a call on a day whose reset has already happened
(last_reset = today, counter c), the stored metadata — its counter
included — is untouched on every non-sent outcome; when the call reports
sent and the metadata write-back is not failing, the stored counter
becomes exactly c+1 (with a last_message_sent stamp); and a publish
failure after a successful archive yields the failure result with the
archived envelope still in the store.  Without the same-day hypothesis
the original claim fails, as C5_counterexample shows: the quota check
itself persists a reset-to-0 on stale-date failure paths. -/
theorem C5_increment_only_after_publish (env : Env) (client_id : String)
    (message_data : MessageCreate) (w : World) (md : Dict) (c : Int)
    (hmd : dictGet w.files (metadataPath client_id) = some md)
    (hne : md.isEmpty = false)
    (hlr : isStrVal (dictGet md "last_reset") env.today = true)
    (hc : (dictGetD md "message_count_today" (.num 0)).asInt = some c) :
    ((send_client_message env client_id message_data w).1.isSent = false →
      dictGet (send_client_message env client_id message_data w).2.files
        (metadataPath client_id) = some md) ∧
    (metadataPath client_id ∉ w.failUploads →
      (send_client_message env client_id message_data w).1.isSent = true →
      dictGet (send_client_message env client_id message_data w).2.files
        (metadataPath client_id) = some (incrementMetadata md env.now c)) ∧
    (w.publishFail = true →
      clientMessagePath client_id env.newId ∉ w.failUploads →
      c < env.dailyLimit →
      (send_client_message env client_id message_data w).1 = SendResult.failure ∧
      dictGet (send_client_message env client_id message_data w).2.files
        (clientMessagePath client_id env.newId)
        = some (buildClientMessage env client_id message_data)) := by
  have hch := check_message_limit_today (w := w) hmd hne hlr hc
  have hmdne := clientMessagePath_ne_metadataPath client_id env.newId
  rcases hs : send_client_message env client_id message_data w with ⟨res, wfin⟩
  by_cases hlt : c < env.dailyLimit
  · have hch' : check_message_limit env client_id w = (true, w) := by
      rw [hch]; simp [hlt]
    by_cases hap : clientMessagePath client_id env.newId ∈ w.failUploads
    · -- archive write fails: nothing is stored, result is failure
      simp only [send_client_message, hch',
        upload_json_fail (d := buildClientMessage env client_id message_data) hap]
        at hs
      injection hs with h1 h2
      subst h1; subst h2
      refine ⟨fun _ => hmd, fun _ habs => by simp [SendResult.isSent] at habs,
        fun _ hap' _ => absurd hap hap'⟩
    · have hupA := upload_json_ok
        (d := buildClientMessage env client_id message_data) (w := w) hap
      by_cases hpf : w.publishFail
      · -- publish fails after a successful archive
        simp only [send_client_message, hch', hupA, publish_client_message,
          publish_message_run, hpf, Bool.not_true] at hs
        injection hs with h1 h2
        subst h1; subst h2
        refine ⟨fun _ => ?_, fun _ habs => by simp [SendResult.isSent] at habs,
          fun _ _ _ => ⟨rfl, ?_⟩⟩
        · simpa [dictGet_dictSet_ne _ _ hmdne] using hmd
        · exact dictGet_dictSet_self _ _ _
      · -- publish succeeds: the increment runs
        have hpf' : w.publishFail = false := by simpa using hpf
        have hmd' : dictGet
            (dictSet w.files (clientMessagePath client_id env.newId)
              (buildClientMessage env client_id message_data))
            (metadataPath client_id) = some md := by
          rw [dictGet_dictSet_ne _ _ hmdne]; exact hmd
        simp only [send_client_message, hch', hupA, publish_client_message,
          publish_message_run, hpf', Bool.not_false] at hs
        rw [increment_message_counter_run (c := c) hmd' hne hc] at hs
        unfold upload_json at hs
        dsimp only at hs
        by_cases hmp : metadataPath client_id ∈ w.failUploads
        · rw [if_pos hmp] at hs
          injection hs with h1 h2
          subst h1; subst h2
          refine ⟨fun habs => by simp [SendResult.isSent] at habs,
            fun hmp' _ => absurd hmp hmp', fun hpub _ _ => absurd hpub hpf⟩
        · rw [if_neg hmp] at hs
          injection hs with h1 h2
          subst h1; subst h2
          refine ⟨fun habs => by simp [SendResult.isSent] at habs,
            fun _ _ => dictGet_dictSet_self _ _ _,
            fun hpub _ _ => absurd hpub hpf⟩
  · have hch' : check_message_limit env client_id w = (false, w) := by
      rw [hch]; simp [hlt]
    rw [send_client_message_of_check_false hch'] at hs
    injection hs with h1 h2
    subst h1; subst h2
    exact ⟨fun _ => hmd, fun _ habs => by simp [SendResult.isSent] at habs,
      fun _ _ hcl => absurd hcl hlt⟩

/-- C5 witness: the amended statement instantiated at the same-day world
w0 with counter 3. -/
theorem C5_increment_only_after_publish_witness :
    ((send_client_message env0 "c1" mc0 w0).1.isSent = false →
      dictGet (send_client_message env0 "c1" mc0 w0).2.files (metadataPath "c1")
        = some [("message_count_today", .num 3), ("last_reset", .str "2026-10-12")]) ∧
    (metadataPath "c1" ∉ w0.failUploads →
      (send_client_message env0 "c1" mc0 w0).1.isSent = true →
      dictGet (send_client_message env0 "c1" mc0 w0).2.files (metadataPath "c1")
        = some (incrementMetadata
            [("message_count_today", .num 3), ("last_reset", .str "2026-10-12")]
            env0.now 3)) ∧
    (w0.publishFail = true →
      clientMessagePath "c1" env0.newId ∉ w0.failUploads →
      (3:Int) < env0.dailyLimit →
      (send_client_message env0 "c1" mc0 w0).1 = SendResult.failure ∧
      dictGet (send_client_message env0 "c1" mc0 w0).2.files
        (clientMessagePath "c1" env0.newId)
        = some (buildClientMessage env0 "c1" mc0)) :=
  C5_increment_only_after_publish env0 "c1" mc0 w0 _ 3 rfl rfl rfl rfl

/-- C4 witness: with both archive paths failing in a concrete world, the
client send is not sent, the workflow send returns None, and no publish
attempt is recorded by either. -/
theorem C4_archive_failure_blocks_publish_witness :
    ((send_client_message env0 "c1" mc0 wArchiveFail).1.isSent = false ∧
      publishCalls (send_client_message env0 "c1" mc0 wArchiveFail).2.trace
        = publishCalls wArchiveFail.trace) ∧
    ((send_workflow_message env0 "enrollment.new" "enrollment_notification"
        "x" [] wArchiveFail).1 = none ∧
      publishCalls (send_workflow_message env0 "enrollment.new"
        "enrollment_notification" "x" [] wArchiveFail).2.trace
        = publishCalls wArchiveFail.trace) :=
  C4_archive_failure_blocks_publish env0 "c1" mc0 "enrollment.new"
    "enrollment_notification" "x" [] wArchiveFail (by decide) (by decide)
